import Mathlib

/-!
Verification development for the voice-controlled fan system
(Node.js host `server.js` plus two ESP32 firmware variants).

The JavaScript host and the Arduino firmware are embedded shallowly:

* strings are `String` / `List Char`; the JS regexes of
  `parseHomeAutomationCommand` and `parseGeminiCommand` are compiled into a
  small backtracking matcher (`Rx` / `run`) that mirrors JS semantics:
  leftmost match, first-alternative preference, greedy `?` and `+`;
* the serial port is a value of `Option SerialPortObj`; writes are recorded
  in an explicit output list instead of performing I/O, and a `write` that
  would throw is modelled by the `writeFails` flag (the JS code catches the
  exception and returns `false`);
* the two firmware files mutate the globals `fanOn`, `currentSpeed` /
  `currentFanSpeed` and `pwmValue`; they are modelled as functions on an
  explicit state record.  `ledcWrite` / LED / status printing are hardware
  and logging I/O mirrored by the `pwmValue` field and are not modelled.
-/

/-- JS `\s` on the ASCII range (space, tab, newline, carriage return,
vertical tab, form feed).  The inputs of interest are ASCII. -/
def isJsWs (c : Char) : Bool :=
  c == ' ' || c == '\t' || c == '\n' || c == '\r' || c == '\x0b' || c == '\x0c'

/-- JS `String.prototype.toLowerCase` restricted to ASCII, as a `List Char`
map (the patterns and vocabulary are ASCII). -/
def jsLower (cs : List Char) : List Char := cs.map Char.toLower

/-- JS `String.prototype.trim`: strip leading and trailing whitespace. -/
def jsTrim (cs : List Char) : List Char :=
  ((cs.dropWhile isJsWs).reverse.dropWhile isJsWs).reverse

/-- `text.toLowerCase().trim()` as used by both JS parsers. -/
def normalizeJs (s : String) : List Char := jsTrim (jsLower s.data)

/-- Strip a literal word from the front of the input; `none` when the input
does not start with it. -/
def stripLit : List Char → List Char → Option (List Char)
  | [], cs => some cs
  | _ :: _, [] => none
  | w :: ws, c :: cs => if c = w then stripLit ws cs else none

/-- The regular-expression fragments occurring in `server.js`:
literals, greedy option `(?:...)?,` concatenation, alternation `|`, and a
greedy non-empty repetition of a character class (`\s+`, `\d+`). -/
inductive Rx where
  | lit : String → Rx
  | opt : Rx → Rx
  | seq : Rx → Rx → Rx
  | alt : Rx → Rx → Rx
  | plusCls : (Char → Bool) → Rx

/-- Greedy continuation of a `+` repetition: consume more characters of the
class first, and on failure of the continuation backtrack to consuming
fewer, exactly as a JS backtracking engine does. -/
def plusTail (p : Char → Bool) : List Char → (List Char → Option α) → Option α
  | [], k => k []
  | c :: cs, k => if p c then (plusTail p cs k <|> k (c :: cs)) else k (c :: cs)

/-- Backtracking matcher in continuation-passing style.  `run r cs k`
tries to match `r` at the front of `cs` and calls `k` on the rest;
alternatives are tried left to right and options greedily, matching the JS
regex engine. -/
def run (r : Rx) (cs : List Char) (k : List Char → Option α) : Option α :=
  match r with
  | .lit w =>
    match stripLit w.data cs with
    | some rest => k rest
    | none => none
  | .opt a => run a cs k <|> k cs
  | .seq a b => run a cs fun rest => run b rest k
  | .alt a b => run a cs k <|> run b cs k
  | .plusCls p =>
    match cs with
    | [] => none
    | c :: rest => if p c then plusTail p rest k else none

/-- JS `regex.test(s)` for a non-anchored pattern: some suffix position
admits a match.  Positions are scanned left to right. -/
def existsMatch (r : Rx) : List Char → Bool
  | [] => (run r [] some).isSome
  | c :: rest => (run r (c :: rest) some).isSome || existsMatch r rest

/-- `\s+` -/
def wsRx : Rx := Rx.plusCls isJsWs

/-- `(?:w\s+)?` — an optional literal word followed by whitespace. -/
def optWord (w : String) : Rx := Rx.opt (Rx.seq (Rx.lit w) wsRx)

/-- `fanPatterns.on`:
`/(?:turn\s+)?(?:the\s+)?fan\s+on|(?:start|switch\s+on)\s+(?:the\s+)?fan/i` -/
def fanOnRx : Rx :=
  Rx.alt
    (Rx.seq (optWord "turn") (Rx.seq (optWord "the")
      (Rx.seq (Rx.lit "fan") (Rx.seq wsRx (Rx.lit "on")))))
    (Rx.seq (Rx.alt (Rx.lit "start") (Rx.seq (Rx.lit "switch") (Rx.seq wsRx (Rx.lit "on"))))
      (Rx.seq wsRx (Rx.seq (optWord "the") (Rx.lit "fan"))))

/-- `fanPatterns.off`:
`/(?:turn\s+)?(?:the\s+)?fan\s+off|(?:stop|switch\s+off)\s+(?:the\s+)?fan/i` -/
def fanOffRx : Rx :=
  Rx.alt
    (Rx.seq (optWord "turn") (Rx.seq (optWord "the")
      (Rx.seq (Rx.lit "fan") (Rx.seq wsRx (Rx.lit "off")))))
    (Rx.seq (Rx.alt (Rx.lit "stop") (Rx.seq (Rx.lit "switch") (Rx.seq wsRx (Rx.lit "off"))))
      (Rx.seq wsRx (Rx.seq (optWord "the") (Rx.lit "fan"))))

/-- `lights?` -/
def lightsWordRx : Rx := Rx.seq (Rx.lit "light") (Rx.opt (Rx.lit "s"))

/-- `lightPatterns.on`: `/(?:turn\s+)?(?:the\s+)?lights?\s+on|lights?\s+on/i` -/
def lightsOnRx : Rx :=
  Rx.alt
    (Rx.seq (optWord "turn") (Rx.seq (optWord "the")
      (Rx.seq lightsWordRx (Rx.seq wsRx (Rx.lit "on")))))
    (Rx.seq lightsWordRx (Rx.seq wsRx (Rx.lit "on")))

/-- `lightPatterns.off`: `/(?:turn\s+)?(?:the\s+)?lights?\s+off|lights?\s+off/i` -/
def lightsOffRx : Rx :=
  Rx.alt
    (Rx.seq (optWord "turn") (Rx.seq (optWord "the")
      (Rx.seq lightsWordRx (Rx.seq wsRx (Rx.lit "off")))))
    (Rx.seq lightsWordRx (Rx.seq wsRx (Rx.lit "off")))

/-- The trailing capture group `(\d+)` of the speed pattern: the greedy
maximal digit run at the current position (nothing follows it in the
pattern, so no backtracking into it can occur). -/
def captureDigits (cs : List Char) : Option (List Char) :=
  let ds := cs.takeWhile Char.isDigit
  if ds.isEmpty then none else some ds

/-- Prefix of the first alternative of `fanPatterns.speed`:
`(?:set\s+)?(?:the\s+)?fan\s+(?:speed\s+)?(?:to\s+)?` (before `(\d+)`). -/
def speedAlt1Rx : Rx :=
  Rx.seq (optWord "set") (Rx.seq (optWord "the")
    (Rx.seq (Rx.lit "fan") (Rx.seq wsRx (Rx.seq (optWord "speed") (optWord "to")))))

/-- Prefix of the second alternative of `fanPatterns.speed`:
`(?:fan\s+)?speed\s+` (before `(\d+)`). -/
def speedAlt2Rx : Rx :=
  Rx.seq (optWord "fan") (Rx.seq (Rx.lit "speed") wsRx)

/-- Try the whole speed pattern at one position: first alternative, then
the second, returning the captured digit run. -/
def speedMatchAt (cs : List Char) : Option (List Char) :=
  run speedAlt1Rx cs captureDigits <|> run speedAlt2Rx cs captureDigits

/-- JS `lowerText.match(fanPatterns.speed)` reduced to its captured group
(`speedMatch[1] || speedMatch[2]`): leftmost position wins. -/
def speedScan : List Char → Option (List Char)
  | [] => speedMatchAt []
  | c :: rest => speedMatchAt (c :: rest) <|> speedScan rest

/-- JS `parseInt` on a non-empty captured digit run: its decimal value. -/
def natOfDigits (ds : List Char) : Nat :=
  ds.foldl (fun a c => a * 10 + (c.toNat - 48)) 0

/-- `ParsedCommand`: the advisory object built by
`parseHomeAutomationCommand` (fields in source order). -/
structure ParsedCommand where
  device : String
  action : String
  value : Option Nat
  confidence : String
  originalText : String
deriving DecidableEq

/-- Tail of `parseHomeAutomationCommand` reached when no fan rule fired:
the lights family, then the `unknown`/`general` default. -/
def lightsOrDefault (text : String) : ParsedCommand :=
  if existsMatch lightsOnRx (normalizeJs text) then
    ⟨"lights", "on", none, "medium", text⟩
  else if existsMatch lightsOffRx (normalizeJs text) then
    ⟨"lights", "off", none, "medium", text⟩
  else
    ⟨"unknown", "general", none, "low", text⟩

/-- `parseHomeAutomationCommand(text)` from `server.js`: lowercase and trim,
then fan-on, fan-off, fan-speed (with the 1..5 range check), lights,
default — first match wins. -/
def parseHomeAutomationCommand (text : String) : ParsedCommand :=
  if existsMatch fanOnRx (normalizeJs text) then
    ⟨"fan", "on", none, "high", text⟩
  else if existsMatch fanOffRx (normalizeJs text) then
    ⟨"fan", "off", none, "high", text⟩
  else
    match speedScan (normalizeJs text) with
    | some ds =>
      if 1 ≤ natOfDigits ds ∧ natOfDigits ds ≤ 5 then
        ⟨"fan", "speed", some (natOfDigits ds), "high", text⟩
      else lightsOrDefault text
    | none => lightsOrDefault text

/-- The JS value handed to `parseGeminiCommand`: a string, or any
non-string value (the code guards with `typeof geminiResponse !== 'string'`). -/
inductive GeminiInput where
  | str : String → GeminiInput
  | notStr : GeminiInput
deriving DecidableEq

/-- The final command object built by `parseGeminiCommand` (fields in
source insertion order, which `JSON.stringify` preserves). -/
structure GeminiCmd where
  device : String
  action : String
  value : Option Nat
  confidence : String
  source : String
deriving DecidableEq

def fanOnCmd : GeminiCmd := ⟨"fan", "on", none, "high", "gemini"⟩

def fanOffCmd : GeminiCmd := ⟨"fan", "off", none, "high", "gemini"⟩

def fanSpeedCmd (n : Nat) : GeminiCmd := ⟨"fan", "speed", some n, "high", "gemini"⟩

/-- `response.match(/^fan speed (\d+)$/)` on the normalized reply: the
whole string must be the literal `"fan speed "` followed by a non-empty
digit run (`$` in JS matches only at the very end of the string). -/
def geminiSpeedCapture (cs : List Char) : Option (List Char) :=
  match stripLit "fan speed ".data cs with
  | some rest =>
    if rest ≠ [] ∧ rest.all Char.isDigit then some rest else none
  | none => none

/-- Body of `parseGeminiCommand` after normalization: the three exact
vocabulary checks of `server.js` lines 284-318. -/
def parseGeminiReply (response : List Char) : Option GeminiCmd :=
  if response = "fan on".data then some fanOnCmd
  else if response = "fan off".data then some fanOffCmd
  else
    match geminiSpeedCapture response with
    | some ds =>
      if 1 ≤ natOfDigits ds ∧ natOfDigits ds ≤ 5 then some (fanSpeedCmd (natOfDigits ds))
      else none
    | none => none

/-- `parseGeminiCommand(geminiResponse)` from `server.js`: rejects falsy or
non-string input (the empty string is falsy in JS), lowercases and trims,
then matches the constrained vocabulary; `null` is modelled as `none`.
The surrounding `try`/`catch` also yields `null`; the body is total. -/
def parseGeminiCommand : GeminiInput → Option GeminiCmd
  | .notStr => none
  | .str s => if s = "" then none else parseGeminiReply (normalizeJs s)

/-- Boolean form of "the anchored speed capture on this reply is in range",
used to phrase decidable no-command hypotheses. -/
def geminiCaptureInRange (cs : List Char) : Bool :=
  match geminiSpeedCapture cs with
  | some ds => decide (1 ≤ natOfDigits ds) && decide (natOfDigits ds ≤ 5)
  | none => false

/-- Boolean form of "the matcher speed scan on this text captures an
integer in range". -/
def speedScanInRange (cs : List Char) : Bool :=
  match speedScan cs with
  | some ds => decide (1 ≤ natOfDigits ds) && decide (natOfDigits ds ≤ 5)
  | none => false

/-- The `serialport` handle: whether the port is open, and whether a
`write` on it would throw (the JS code catches that exception). -/
structure SerialPortObj where
  isOpen : Bool
  writeFails : Bool
deriving DecidableEq

/-- The process-wide `serialPort` variable: `null` or a port object. -/
def SerialState := Option SerialPortObj

/-- Is the link usable, i.e. `serialPort && serialPort.isOpen` in JS. -/
def isLinkOpen : SerialState → Bool
  | none => false
  | some p => p.isOpen

/-- `JSON.stringify` of a `parseGeminiCommand` result object: the five keys
in insertion order; `value` is `null` for on/off commands. -/
def jsonStringifyCmd (c : GeminiCmd) : String :=
  "\x7b\"device\":\"" ++ c.device ++ "\",\"action\":\"" ++ c.action ++
    "\",\"value\":" ++ (match c.value with | none => "null" | some n => toString n) ++
    ",\"confidence\":\"" ++ c.confidence ++ "\",\"source\":\"" ++ c.source ++ "\"\x7d"

/-- `sendCommandToESP32(command)` from `server.js`: returns `false` with no
write when the port is absent or not open; otherwise writes
`JSON.stringify(command) + '\n'` and returns `true`, or returns `false`
when the write throws (caught).  The second component is the list of
strings written to the serial link. -/
def sendCommandToESP32 (port : SerialState) (command : GeminiCmd) : Bool × List String :=
  match port with
  | none => (false, [])
  | some p =>
    if !p.isOpen then (false, [])
    else if p.writeFails then (false, [])
    else (true, [jsonStringifyCmd command ++ "\n"])

/-- The dispatch step shared by the `/voice` and `/text` handlers:
`if (finalCommand && finalCommand.device === 'fan') sendCommandToESP32(...)`,
otherwise `esp32Sent` stays `false` and nothing is written. -/
def dispatchFinal (port : SerialState) (final : Option GeminiCmd) : Bool × List String :=
  match final with
  | some c => if c.device = "fan" then sendCommandToESP32 port c else (false, [])
  | none => (false, [])

/-- Arduino `map(x, in_min, in_max, out_min, out_max)`: integer arithmetic
with C `long` division (truncation toward zero, `Int.div`). -/
def arduinoMap (x inLo inHi outLo outHi : Int) : Int :=
  Int.tdiv ((x - inLo) * (outHi - outLo)) (inHi - inLo) + outLo

namespace Part000

/-- Globals of the first firmware variant (`src/unnamed/part_000`):
`fanOn`, `currentSpeed` (0-5), `pwmValue` (0-255). -/
structure FanState where
  fanOn : Bool
  currentSpeed : Int
  pwmValue : Int
deriving DecidableEq

/-- `stopFan()`: zero the PWM outputs, `pwmValue` and `currentSpeed`
(`fanOn` is untouched here). -/
def stopFan (s : FanState) : FanState :=
  { s with pwmValue := 0, currentSpeed := 0 }

/-- `applyPWM()`: stop unless running with a non-zero speed, else
`pwmValue = map(currentSpeed, 1, 5, 51, 255)`. -/
def applyPWM (s : FanState) : FanState :=
  if !s.fanOn || s.currentSpeed == 0 then stopFan s
  else { s with pwmValue := arduinoMap s.currentSpeed 1 5 51 255 }

/-- `setFanSpeed(speed)`: out-of-range speeds are rejected with an error
status and leave the state unchanged; in-range speeds are stored, the fan
is marked on, and the PWM applied. -/
def setFanSpeed (s : FanState) (speed : Int) : FanState :=
  if speed < 1 || speed > 5 then s
  else applyPWM { s with currentSpeed := speed, fanOn := true }

/-- `turnFanOn()`: mark on; with no stored speed default to
`setFanSpeed(3)`, otherwise re-apply the stored speed. -/
def turnFanOn (s : FanState) : FanState :=
  let s := { s with fanOn := true }
  if s.currentSpeed == 0 then setFanSpeed s 3 else applyPWM s

/-- `turnFanOff()`. -/
def turnFanOff (s : FanState) : FanState :=
  stopFan { s with fanOn := false }

end Part000

namespace Part001

/-- Globals of the second firmware variant (`src/unnamed/part_001`):
`fanOn`, `currentFanSpeed` (0-5), `pwmValue` (0-255). -/
structure FanState where
  fanOn : Bool
  currentFanSpeed : Int
  pwmValue : Int
deriving DecidableEq

/-- `stopFan()`: zero the PWM outputs and `pwmValue` (this variant keeps
`currentFanSpeed`). -/
def stopFan (s : FanState) : FanState :=
  { s with pwmValue := 0 }

/-- `applyFanSpeed()`: stop unless running with a non-zero speed, else
`pwmValue = map(currentFanSpeed, 1, 5, 51, 255)`. -/
def applyFanSpeed (s : FanState) : FanState :=
  if !s.fanOn || s.currentFanSpeed == 0 then stopFan s
  else { s with pwmValue := arduinoMap s.currentFanSpeed 1 5 51 255 }

/-- `turnFanOff()`. -/
def turnFanOff (s : FanState) : FanState :=
  stopFan { s with fanOn := false }

/-- `setFanSpeed(speed)`: this variant clamps the argument into 0..5
(`if (speed < 0) speed = 0; if (speed > 5) speed = 5;`), stores it, and
either runs the fan (speed > 0) or turns it off (speed 0). -/
def setFanSpeed (s : FanState) (speed : Int) : FanState :=
  let sp := if speed < 0 then 0 else speed
  let sp := if sp > 5 then 5 else sp
  let s := { s with currentFanSpeed := sp }
  if sp > 0 then applyFanSpeed { s with fanOn := true }
  else turnFanOff s

/-- `turnFanOn()`: mark on; with no stored speed default to
`setFanSpeed(1)`, otherwise re-apply the stored speed. -/
def turnFanOn (s : FanState) : FanState :=
  let s := { s with fanOn := true }
  if s.currentFanSpeed == 0 then setFanSpeed s 1 else applyFanSpeed s

end Part001

/-- The closed vocabulary of commands `parseGeminiCommand` can build. -/
def geminiVocab : List GeminiCmd :=
  [fanOnCmd, fanOffCmd, fanSpeedCmd 1, fanSpeedCmd 2, fanSpeedCmd 3,
   fanSpeedCmd 4, fanSpeedCmd 5]

/-- Does `needle` occur starting at some position of the char list? -/
def containsAt (needle : String) : List Char → Bool
  | [] => (stripLit needle.data []).isSome
  | c :: rest => (stripLit needle.data (c :: rest)).isSome || containsAt needle rest

/-- Plain substring containment (used to state the unanchored-pattern
claim about texts containing "speed N"). -/
def strContains (hay needle : String) : Bool := containsAt needle hay.data

lemma parseGeminiReply_mem_vocab (r : List Char) (c : GeminiCmd)
    (h : parseGeminiReply r = some c) : c ∈ geminiVocab := by
  unfold parseGeminiReply at h
  split at h
  · injection h with h; subst h; decide
  · split at h
    · injection h with h; subst h; decide
    · split at h
      · rename_i ds _
        split at h
        · rename_i hr
          injection h with h
          subst h
          obtain ⟨h1, h2⟩ := hr
          have h5 : natOfDigits ds = 1 ∨ natOfDigits ds = 2 ∨ natOfDigits ds = 3 ∨
              natOfDigits ds = 4 ∨ natOfDigits ds = 5 := by omega
          rcases h5 with h5 | h5 | h5 | h5 | h5 <;> rw [h5] <;> decide
        · cases h
      · cases h

lemma parseGeminiCommand_mem_vocab (input : GeminiInput) (c : GeminiCmd)
    (h : parseGeminiCommand input = some c) : c ∈ geminiVocab := by
  cases input with
  | notStr => cases h
  | str s =>
    simp only [parseGeminiCommand] at h
    split at h
    · cases h
    · exact parseGeminiReply_mem_vocab _ _ h

/-- C6: whenever the serial link is not open (no port object or a port
that is not open), `sendCommandToESP32` returns `false` and writes
nothing, for every command; being a total Lean function, it never throws. -/
theorem c6_send_not_open (port : SerialState) (cmd : GeminiCmd)
    (h : isLinkOpen port = false) :
    sendCommandToESP32 port cmd = (false, []) := by
  cases port with
  | none => rfl
  | some p =>
    simp only [isLinkOpen] at h
    simp [sendCommandToESP32, h]

theorem c6_send_not_open_witness :
    isLinkOpen (none : SerialState) = false ∧
      sendCommandToESP32 (none : SerialState) fanOnCmd = (false, []) :=
  ⟨rfl, c6_send_not_open none fanOnCmd rfl⟩

/-- C10: with stored speed 0 (boot, or after any off in part_000),
`turnFanOn` defaults to speed 3 in the part_000 firmware and to speed 1 in
the part_001 firmware — the two variants disagree. -/
theorem c10_default_on_speed (s0 : Part000.FanState) (s1 : Part001.FanState)
    (h0 : s0.currentSpeed = 0) (h1 : s1.currentFanSpeed = 0) :
    (Part000.turnFanOn s0).currentSpeed = 3 ∧
      (Part001.turnFanOn s1).currentFanSpeed = 1 := by
  constructor
  · simp [Part000.turnFanOn, Part000.setFanSpeed, Part000.applyPWM, Part000.stopFan, h0]
  · simp [Part001.turnFanOn, Part001.setFanSpeed, Part001.applyFanSpeed, Part001.stopFan,
      Part001.turnFanOff, h1]

theorem c10_default_on_speed_witness :
    (Part000.turnFanOn ⟨false, 0, 0⟩).currentSpeed = 3 ∧
      (Part001.turnFanOn ⟨false, 0, 0⟩).currentFanSpeed = 1 :=
  c10_default_on_speed ⟨false, 0, 0⟩ ⟨false, 0, 0⟩ rfl rfl

/-- C3 counterexample: at speed 2 both firmware variants compute
`map(2, 1, 5, 51, 255) = 102`, not the 89 claimed by the spec's table
(the spec's own formula also gives 102 there, since (255-51)/4 = 51). -/
theorem c3_pwm_table_counterexample :
    (Part000.setFanSpeed ⟨false, 0, 0⟩ 2).pwmValue = 102 ∧
    (Part001.setFanSpeed ⟨false, 0, 0⟩ 2).pwmValue = 102 ∧
    ¬ (102 : Int) = 89 := by decide

/-- C3 amended: the speed-to-PWM mapping is strictly increasing on 1..5
and equals `51 * speed` — the table points 51, 102, 153, 204, 255 — in
both firmware variants (matching `round(51 + (speed-1)*(255-51)/4)`,
whose value is `51*speed`; the spec's listed points 89, 127, 191 for
speeds 2-4 do not match its own formula). -/
theorem c3_pwm_map_amended :
    (∀ (st : Part000.FanState) (s : Int), 1 ≤ s → s ≤ 5 →
       (Part000.setFanSpeed st s).pwmValue = 51 * s) ∧
    (∀ (st : Part001.FanState) (s : Int), 1 ≤ s → s ≤ 5 →
       (Part001.setFanSpeed st s).pwmValue = 51 * s) ∧
    (∀ s : Int, 1 ≤ s → s < 5 →
       arduinoMap s 1 5 51 255 < arduinoMap (s + 1) 1 5 51 255) := by
  refine ⟨?_, ?_, ?_⟩
  · intro st s h1 h5
    interval_cases s <;>
      simp [Part000.setFanSpeed, Part000.applyPWM, Part000.stopFan, arduinoMap] <;> decide
  · intro st s h1 h5
    interval_cases s <;>
      simp [Part001.setFanSpeed, Part001.applyFanSpeed, Part001.stopFan,
        Part001.turnFanOff, arduinoMap] <;> decide
  · intro s h1 h5
    interval_cases s <;> decide

theorem c3_pwm_map_amended_witness :
    (Part000.setFanSpeed ⟨false, 0, 0⟩ 3).pwmValue = 51 * 3 ∧
    (Part001.setFanSpeed ⟨false, 0, 0⟩ 5).pwmValue = 51 * 5 ∧
    arduinoMap 2 1 5 51 255 < arduinoMap 3 1 5 51 255 :=
  ⟨c3_pwm_map_amended.1 ⟨false, 0, 0⟩ 3 (by decide) (by decide),
   c3_pwm_map_amended.2.1 ⟨false, 0, 0⟩ 5 (by decide) (by decide),
   c3_pwm_map_amended.2.2 2 (by decide) (by decide)⟩

/-- C2 counterexample: the final command for "fan speed 3" is dispatched
as the full `JSON.stringify` of the parsed object — including the
`confidence` and `source` fields — not as the three-field wire line of
spec section 6. -/
theorem c2_wire_format_counterexample :
    parseGeminiCommand (.str "fan speed 3") = some (fanSpeedCmd 3) ∧
    (dispatchFinal (some ⟨true, false⟩) (some (fanSpeedCmd 3))).2 =
      ["\x7b\"device\":\"fan\",\"action\":\"speed\",\"value\":3,\"confidence\":\"high\",\"source\":\"gemini\"\x7d\n"] ∧
    ("\x7b\"device\":\"fan\",\"action\":\"speed\",\"value\":3,\"confidence\":\"high\",\"source\":\"gemini\"\x7d\n" : String) ≠
      "\x7b\"device\":\"fan\",\"action\":\"speed\",\"value\":3\x7d\n" := by
  refine ⟨by decide, by decide, by decide⟩

/-- C2 amended: for every dispatched final command, `sendCommandToESP32`
writes exactly one newline-terminated line whose content is
`JSON.stringify` of the whole command object — fields `device`, `action`,
`value` (null unless speed), `confidence`, `source` — e.g. dispatching
the parse of "fan speed 3" writes the line shown below; the firmware
reads only `device`/`action`/`value`, ignoring the extra fields. -/
theorem c2_wire_line_amended (p : SerialPortObj) (input : GeminiInput) (c : GeminiCmd)
    (hOpen : p.isOpen = true) (hw : p.writeFails = false)
    (hc : parseGeminiCommand input = some c) :
    sendCommandToESP32 (some p) c = (true, [jsonStringifyCmd c ++ "\n"]) ∧
    ¬ '\n' ∈ (jsonStringifyCmd c).data ∧
    jsonStringifyCmd (fanSpeedCmd 3) =
      "\x7b\"device\":\"fan\",\"action\":\"speed\",\"value\":3,\"confidence\":\"high\",\"source\":\"gemini\"\x7d" := by
  refine ⟨by simp [sendCommandToESP32, hOpen, hw], ?_, by decide⟩
  have hm := parseGeminiCommand_mem_vocab input c hc
  fin_cases hm <;> decide

theorem c2_wire_line_amended_witness :
    sendCommandToESP32 (some ⟨true, false⟩) fanOnCmd =
      (true, [jsonStringifyCmd fanOnCmd ++ "\n"]) ∧
    ¬ '\n' ∈ (jsonStringifyCmd fanOnCmd).data :=
  ⟨(c2_wire_line_amended ⟨true, false⟩ (.str "fan on") fanOnCmd rfl rfl (by decide)).1,
   (c2_wire_line_amended ⟨true, false⟩ (.str "fan on") fanOnCmd rfl rfl (by decide)).2.1⟩

/-- C1: `parseGeminiCommand` only ever returns a command with device
`fan` and action among on, off, and speed with value 1..5; and the
`/voice` and `/text` dispatch step writes to the serial link only when a
final command is present and its device equals `fan`. -/
theorem c1_final_command_vocabulary :
    (∀ (input : GeminiInput) (c : GeminiCmd), parseGeminiCommand input = some c →
       c.device = "fan" ∧
       ((c.action = "on" ∧ c.value = none) ∨ (c.action = "off" ∧ c.value = none) ∨
        (∃ n, c.action = "speed" ∧ c.value = some n ∧ 1 ≤ n ∧ n ≤ 5))) ∧
    (∀ (port : SerialState) (final : Option GeminiCmd),
       (dispatchFinal port final).2 ≠ [] →
       ∃ c, final = some c ∧ c.device = "fan") := by
  constructor
  · intro input c h
    have hm := parseGeminiCommand_mem_vocab input c h
    fin_cases hm
    · exact ⟨rfl, Or.inl ⟨rfl, rfl⟩⟩
    · exact ⟨rfl, Or.inr (Or.inl ⟨rfl, rfl⟩)⟩
    · exact ⟨rfl, Or.inr (Or.inr ⟨1, rfl, rfl, by decide, by decide⟩)⟩
    · exact ⟨rfl, Or.inr (Or.inr ⟨2, rfl, rfl, by decide, by decide⟩)⟩
    · exact ⟨rfl, Or.inr (Or.inr ⟨3, rfl, rfl, by decide, by decide⟩)⟩
    · exact ⟨rfl, Or.inr (Or.inr ⟨4, rfl, rfl, by decide, by decide⟩)⟩
    · exact ⟨rfl, Or.inr (Or.inr ⟨5, rfl, rfl, by decide, by decide⟩)⟩
  · intro port final h
    cases final with
    | none => simp [dispatchFinal] at h
    | some c =>
      by_cases hd : c.device = "fan"
      · exact ⟨c, rfl, hd⟩
      · simp [dispatchFinal, hd] at h

theorem c1_final_command_vocabulary_witness :
    fanOnCmd.device = "fan" ∧
      ∃ c, some fanOnCmd = some c ∧ c.device = "fan" :=
  ⟨(c1_final_command_vocabulary.1 (.str "fan on") fanOnCmd (by decide)).1,
   c1_final_command_vocabulary.2 (some ⟨true, false⟩) (some fanOnCmd) (by decide)⟩

/-- C5: after lowercasing and trimming, `parseGeminiCommand` maps
"fan on" to the on command, "fan off" to the off command, "fan speed N"
with captured N in 1..5 to the speed command, and every other reply —
untrimmed wrong-case "FAN ON" still normalizing to "fan on" — as well as
the empty string and non-string input, to no command. -/
theorem c5_gemini_reply_grammar :
    (∀ N : Nat, 1 ≤ N → N ≤ 5 →
       parseGeminiCommand (.str ("fan speed " ++ toString N)) = some (fanSpeedCmd N)) ∧
    parseGeminiCommand (.str "fan on") = some fanOnCmd ∧
    parseGeminiCommand (.str "fan off") = some fanOffCmd ∧
    parseGeminiCommand (.str " FAN ON ") = some fanOnCmd ∧
    parseGeminiCommand (.str "") = none ∧
    parseGeminiCommand .notStr = none ∧
    (∀ s : String, normalizeJs s ≠ "fan on".data → normalizeJs s ≠ "fan off".data →
       geminiCaptureInRange (normalizeJs s) = false →
       parseGeminiCommand (.str s) = none) := by
  refine ⟨?_, by decide, by decide, by decide, by decide, rfl, ?_⟩
  · intro N h1 h5
    interval_cases N <;> decide
  · intro s h1 h2 h3
    by_cases he : s = ""
    · simp [parseGeminiCommand, he]
    · rw [show parseGeminiCommand (.str s) =
           if s = "" then none else parseGeminiReply (normalizeJs s) from rfl,
         if_neg he]
      unfold parseGeminiReply
      rw [if_neg h1, if_neg h2]
      unfold geminiCaptureInRange at h3
      cases hc : geminiSpeedCapture (normalizeJs s) with
      | none => simp
      | some ds =>
        have hnr : ¬(1 ≤ natOfDigits ds ∧ natOfDigits ds ≤ 5) := by
          intro hr
          rw [hc] at h3
          simp [hr.1, hr.2] at h3
        simp [hc, hnr]

theorem c5_gemini_reply_grammar_witness :
    parseGeminiCommand (.str ("fan speed " ++ toString 2)) = some (fanSpeedCmd 2) ∧
    parseGeminiCommand (.str "please fan on") = none :=
  ⟨c5_gemini_reply_grammar.1 2 (by decide) (by decide),
   c5_gemini_reply_grammar.2.2.2.2.2.2 "please fan on" (by decide) (by decide) (by decide)⟩

lemma lightsOrDefault_action_ne (t : String) : (lightsOrDefault t).action ≠ "speed" := by
  unfold lightsOrDefault
  split
  · simp
  · split <;> simp

lemma lightsOrDefault_device_ne (t : String) : (lightsOrDefault t).device ≠ "fan" := by
  unfold lightsOrDefault
  split
  · simp
  · split <;> simp

lemma lightsOrDefault_originalText (t : String) : (lightsOrDefault t).originalText = t := by
  unfold lightsOrDefault
  split
  · rfl
  · split <;> rfl

/-- C4 counterexample: the part_001 firmware, asked for speed 9, does not
reject it — it clamps to 5 and runs the fan at full PWM. -/
theorem c4_out_of_range_counterexample :
    (Part001.setFanSpeed ⟨false, 0, 0⟩ 9).currentFanSpeed = 5 ∧
    (Part001.setFanSpeed ⟨false, 0, 0⟩ 9).pwmValue = 255 ∧
    (Part001.setFanSpeed ⟨false, 0, 0⟩ 9).fanOn = true ∧
    Part001.setFanSpeed ⟨false, 0, 0⟩ 9 ≠ (⟨false, 0, 0⟩ : Part001.FanState) := by
  decide

/-- C4 amended: an out-of-range speed is treated as no match by the
matcher, as no command by the classifier-reply parser, and as a rejected
error (state unchanged) by the part_000 firmware; the part_001 firmware
variant however clamps speeds above 5 to 5 (fan on at full speed) and
treats speeds below 1 as fan-off. -/
theorem c4_out_of_range_amended :
    (∀ (text : String) (ds : List Char),
       existsMatch fanOnRx (normalizeJs text) = false →
       existsMatch fanOffRx (normalizeJs text) = false →
       speedScan (normalizeJs text) = some ds →
       ¬(1 ≤ natOfDigits ds ∧ natOfDigits ds ≤ 5) →
       (parseHomeAutomationCommand text).action ≠ "speed") ∧
    (∀ (s : String) (ds : List Char),
       geminiSpeedCapture (normalizeJs s) = some ds →
       ¬(1 ≤ natOfDigits ds ∧ natOfDigits ds ≤ 5) →
       parseGeminiCommand (.str s) = none) ∧
    (∀ (st : Part000.FanState) (v : Int), v < 1 ∨ 5 < v →
       Part000.setFanSpeed st v = st) ∧
    (∀ (st : Part001.FanState) (v : Int), 5 < v →
       (Part001.setFanSpeed st v).currentFanSpeed = 5 ∧
       (Part001.setFanSpeed st v).fanOn = true ∧
       (Part001.setFanSpeed st v).pwmValue = 255) ∧
    (∀ (st : Part001.FanState) (v : Int), v ≤ 0 →
       (Part001.setFanSpeed st v).currentFanSpeed = 0 ∧
       (Part001.setFanSpeed st v).fanOn = false ∧
       (Part001.setFanSpeed st v).pwmValue = 0) := by
  refine ⟨?_, ?_, ?_, ?_, ?_⟩
  · intro text ds h1 h2 hs hr
    simp [parseHomeAutomationCommand, h1, h2, hs, hr]
    exact lightsOrDefault_action_ne text
  · intro s ds hc hr
    have he : s ≠ "" := by
      intro he
      rw [he] at hc
      rw [show geminiSpeedCapture (normalizeJs "") = none from rfl] at hc
      cases hc
    have hA : normalizeJs s ≠ "fan on".data := by
      intro hA
      rw [hA, show geminiSpeedCapture ("fan on".data) = none from by decide] at hc
      cases hc
    have hB : normalizeJs s ≠ "fan off".data := by
      intro hB
      rw [hB, show geminiSpeedCapture ("fan off".data) = none from by decide] at hc
      cases hc
    rw [show parseGeminiCommand (.str s) =
         if s = "" then none else parseGeminiReply (normalizeJs s) from rfl,
       if_neg he]
    unfold parseGeminiReply
    rw [if_neg hA, if_neg hB]
    simp [hc, hr]
  · intro st v hv
    have : (v < 1 || v > 5) = true := by rcases hv with h | h <;> simp [h]
    simp [Part000.setFanSpeed, this]
  · intro st v hv
    have h0 : ¬ v < 0 := by omega
    have h5 : v > 5 := hv
    simp [Part001.setFanSpeed, Part001.applyFanSpeed, Part001.stopFan, h0, h5, arduinoMap]
    decide
  · intro st v hv
    have hsp : (if v < 0 then (0 : Int) else v) = 0 := by split <;> omega
    simp [Part001.setFanSpeed, Part001.turnFanOff, Part001.stopFan, hsp]

theorem c4_out_of_range_amended_witness :
    (parseHomeAutomationCommand "fan 9").action ≠ "speed" ∧
    parseGeminiCommand (.str "fan speed 9") = none ∧
    Part000.setFanSpeed ⟨false, 0, 0⟩ 7 = ⟨false, 0, 0⟩ ∧
    (Part001.setFanSpeed ⟨false, 0, 0⟩ 9).currentFanSpeed = 5 ∧
    (Part001.setFanSpeed ⟨false, 0, 0⟩ (-2)).fanOn = false :=
  ⟨c4_out_of_range_amended.1 "fan 9" ['9'] (by decide) (by decide) (by decide) (by decide),
   c4_out_of_range_amended.2.1 "fan speed 9" ['9'] (by decide) (by decide),
   c4_out_of_range_amended.2.2.1 ⟨false, 0, 0⟩ 7 (Or.inr (by decide)),
   (c4_out_of_range_amended.2.2.2.1 ⟨false, 0, 0⟩ 9 (by decide)).1,
   (c4_out_of_range_amended.2.2.2.2 ⟨false, 0, 0⟩ (-2) (by decide)).2.1⟩

/-- C7: the Intent Matcher is a total function (a total Lean definition,
so it cannot throw) that preserves the original text on every input, and
whenever no pattern family matches — fan-on, fan-off, an in-range speed
capture, lights-on, lights-off — it returns exactly the
unknown/general/low default carrying the original text. -/
theorem c7_matcher_total_default :
    (∀ text : String, (parseHomeAutomationCommand text).originalText = text) ∧
    (∀ text : String,
       existsMatch fanOnRx (normalizeJs text) = false →
       existsMatch fanOffRx (normalizeJs text) = false →
       speedScanInRange (normalizeJs text) = false →
       existsMatch lightsOnRx (normalizeJs text) = false →
       existsMatch lightsOffRx (normalizeJs text) = false →
       parseHomeAutomationCommand text = ⟨"unknown", "general", none, "low", text⟩) := by
  constructor
  · intro text
    unfold parseHomeAutomationCommand
    split
    · rfl
    · split
      · rfl
      · split
        · split
          · rfl
          · exact lightsOrDefault_originalText text
        · exact lightsOrDefault_originalText text
  · intro text h1 h2 h3 h4 h5
    unfold speedScanInRange at h3
    unfold parseHomeAutomationCommand
    rw [h1, h2]
    simp only [Bool.false_eq_true, if_false]
    cases hs : speedScan (normalizeJs text) with
    | none => simp [lightsOrDefault, h4, h5]
    | some ds =>
      rw [hs] at h3
      have hnr : ¬(1 ≤ natOfDigits ds ∧ natOfDigits ds ≤ 5) := by
        intro hr
        simp [hr.1, hr.2] at h3
      simp [hnr, lightsOrDefault, h4, h5]

theorem c7_matcher_total_default_witness :
    (parseHomeAutomationCommand "speed 3").originalText = "speed 3" ∧
    parseHomeAutomationCommand "hello there" =
      ⟨"unknown", "general", none, "low", "hello there"⟩ :=
  ⟨c7_matcher_total_default.1 "speed 3",
   c7_matcher_total_default.2 "hello there" (by decide) (by decide) (by decide)
     (by decide) (by decide)⟩

/-- C8: when neither fan-on nor fan-off pattern matches and the speed
pattern captures an integer outside 1..5, the matcher falls through to
the lights family and then the unknown/general default (it evaluates to
exactly that tail), returning neither an error nor any speed or fan
command. -/
theorem c8_speed_out_of_range_falls_through (text : String) (ds : List Char)
    (h1 : existsMatch fanOnRx (normalizeJs text) = false)
    (h2 : existsMatch fanOffRx (normalizeJs text) = false)
    (hs : speedScan (normalizeJs text) = some ds)
    (hr : ¬(1 ≤ natOfDigits ds ∧ natOfDigits ds ≤ 5)) :
    parseHomeAutomationCommand text = lightsOrDefault text ∧
    (parseHomeAutomationCommand text).action ≠ "speed" ∧
    (parseHomeAutomationCommand text).device ≠ "fan" := by
  have hmain : parseHomeAutomationCommand text = lightsOrDefault text := by
    unfold parseHomeAutomationCommand
    rw [h1, h2]
    simp only [Bool.false_eq_true, if_false]
    rw [hs]
    simp [hr]
  refine ⟨hmain, ?_, ?_⟩
  · rw [hmain]; exact lightsOrDefault_action_ne text
  · rw [hmain]; exact lightsOrDefault_device_ne text

theorem c8_speed_out_of_range_falls_through_witness :
    parseHomeAutomationCommand "fan 9" = lightsOrDefault "fan 9" ∧
    (parseHomeAutomationCommand "fan 9").action ≠ "speed" ∧
    (parseHomeAutomationCommand "fan 9").device ≠ "fan" :=
  c8_speed_out_of_range_falls_through "fan 9" ['9'] (by decide) (by decide)
    (by decide) (by decide)

/-- C9 counterexample: "speed 35" contains the substring "speed 3" and
matches no fan-on or fan-off pattern, yet the matcher returns the
unknown/general default, not a fan-speed-3 command — the greedy `\d+`
captures 35, which is out of range. -/
theorem c9_unanchored_speed_counterexample :
    strContains "speed 35" "speed 3" = true ∧
    existsMatch fanOnRx (normalizeJs "speed 35") = false ∧
    existsMatch fanOffRx (normalizeJs "speed 35") = false ∧
    parseHomeAutomationCommand "speed 35" =
      ⟨"unknown", "general", none, "low", "speed 35"⟩ ∧
    parseHomeAutomationCommand "speed 35" ≠
      ⟨"fan", "speed", some 3, "high", "speed 35"⟩ := by
  refine ⟨by decide, by decide, by decide, by decide, by decide⟩

/-- C9 amended: the speed pattern is unanchored and its "fan" lead-in is
optional: whenever the text matches no fan-on or fan-off pattern and the
leftmost match of the speed pattern captures an integer N in 1..5, the
matcher returns the fan/speed/N/high command — even when the surrounding
text is unrelated to the fan. -/
theorem c9_unanchored_speed_amended (text : String) (ds : List Char) (N : Nat)
    (h1 : existsMatch fanOnRx (normalizeJs text) = false)
    (h2 : existsMatch fanOffRx (normalizeJs text) = false)
    (hs : speedScan (normalizeJs text) = some ds)
    (hN : natOfDigits ds = N) (hlo : 1 ≤ N) (hhi : N ≤ 5) :
    parseHomeAutomationCommand text = ⟨"fan", "speed", some N, "high", text⟩ := by
  unfold parseHomeAutomationCommand
  rw [h1, h2]
  simp only [Bool.false_eq_true, if_false]
  rw [hs]
  simp [hN, hlo, hhi]

theorem c9_unanchored_speed_amended_witness :
    parseHomeAutomationCommand "increase speed 2 please" =
      ⟨"fan", "speed", some 2, "high", "increase speed 2 please"⟩ :=
  c9_unanchored_speed_amended "increase speed 2 please" ['2'] 2 (by decide)
    (by decide) (by decide) (by decide) (by decide) (by decide)
